import Mathlib

/-!
Verification of the GO Feature Flag python provider's generic resolution
path (`gofeatureflag_python_provider/provider.py`), shallowly embedded.

The embedding covers the response-interpretation pipeline of
`generic_go_feature_flag_resolver` (provider.py lines 130-193): the HTTP
status classification, the typed decode of the response body, the
integer-coercion guard, the DISABLED / FLAG_NOT_FOUND branches, and the
exception-classification wrapper (the three `except` clauses).

JSON values are modelled by an inductive `Json` type that keeps the
distinction Python's `json.loads` makes between integer literals (`int`),
float literals (`float`) and booleans (`bool`), since the integer guard at
provider.py line 163 checks `type(response_json.get("value")) != int` on
exactly that raw decoding.
-/

/-- A JSON value as decoded by Python's `json.loads`: `jint` is a JSON
integer literal (Python `int`), `jfloat` a float literal (Python `float`,
modelled as a rational), `jbool` a boolean (Python `bool`, which is *not*
`int` for the `type(...) != int` check even though it subclasses it). -/
inductive Json where
  | jnull : Json
  | jbool : Bool → Json
  | jint : Int → Json
  | jfloat : Rat → Json
  | jstr : String → Json
  | jarr : List Json → Json
  | jobj : List (String × Json) → Json

/-- `d.get(key)` on a decoded JSON object; `none` when the key is absent or
the value is not an object (Python would return `None` / fail earlier). -/
def Json.lookup : Json → String → Option Json
  | .jobj fields, key => fields.lookup key
  | _, _ => none

/-- The declared value type of a resolution call: the `original_type`
argument of `generic_go_feature_flag_resolver` (`bool`, `str`, `int`,
`float`, or `Union[dict, list]` for object resolution). -/
inductive DeclType where
  | bool
  | str
  | int
  | float
  | obj
deriving DecidableEq

/-- Exact-kind match between a declared type and a JSON value: the value is
already of the declared Python type with no coercion needed. -/
def Json.hasDeclType : DeclType → Json → Bool
  | .bool, .jbool _ => true
  | .str, .jstr _ => true
  | .int, .jint _ => true
  | .float, .jfloat _ => true
  | .obj, .jobj _ => true
  | .obj, .jarr _ => true
  | _, _ => false

/-- Modelled from the spec: the pydantic decode of the `value` field of the
`ResponseFlagEvaluation[T]` schema (the schema module
`response_flag_evaluation.py` is not part of the sources; §3 of the spec
gives `value : T`). Besides exact matches it includes the coercions the
sources attest: a float is converted to int by truncation (the comment at
provider.py line 162, "in some cases pydantic auto convert float in int"),
a bool coerces to int (Python bools subclass int), and an int widens to
float. Anything else fails validation. -/
def coerceValue : DeclType → Json → Option Json
  | .bool, .jbool b => some (.jbool b)
  | .str, .jstr s => some (.jstr s)
  | .int, .jint n => some (.jint n)
  | .int, .jfloat q => some (.jint (q.num.tdiv q.den))
  | .int, .jbool b => some (.jint (if b then 1 else 0))
  | .float, .jfloat q => some (.jfloat q)
  | .float, .jint n => some (.jfloat (n : Rat))
  | .obj, .jobj fields => some (.jobj fields)
  | .obj, .jarr items => some (.jarr items)
  | _, _ => none

/-- Modelled from the spec: decode of an optional string field
(`variationType`, `reason`, `errorCode` of the response schema, §3 of the
spec); absent or null gives `none`, a string gives the string, any other
kind fails validation. -/
def parseOptStr (body : Json) (field : String) : Option (Option String) :=
  match body.lookup field with
  | none => some none
  | some .jnull => some none
  | some (.jstr s) => some (some s)
  | some _ => none

/-- The decoded response body: `ResponseFlagEvaluation[T]` with the value
kept as a `Json` already coerced to the declared type. -/
structure ResponseFlagEvaluation where
  value : Json
  variationType : Option String
  reason : Option String
  errorCode : Option String

/-- Modelled from the spec: `ResponseFlagEvaluation[original_type].parse_raw`
(provider.py lines 156-158). The body must be a JSON object with a `value`
field decoding against the declared type (see `coerceValue`) and optional
string fields `variationType`, `reason`, `errorCode`; extra fields are
ignored. `none` is a pydantic `ValidationError`. -/
def parseResponse (t : DeclType) (body : Json) : Option ResponseFlagEvaluation :=
  match body with
  | .jobj fields =>
    match (Json.jobj fields).lookup "value" with
    | none => none
    | some raw =>
      match coerceValue t raw with
      | none => none
      | some value =>
        match parseOptStr (Json.jobj fields) "variationType",
              parseOptStr (Json.jobj fields) "reason",
              parseOptStr (Json.jobj fields) "errorCode" with
        | some variationType, some reason, some errorCode =>
          some ⟨value, variationType, reason, errorCode⟩
        | _, _, _ => none
  | _ => none

/-- The integer-coercion guard's test (provider.py line 163):
`type(json.loads(response.data).get("value")) == int`, i.e. the raw JSON
`value` field is an integer literal (missing field, floats and booleans all
fail the test). -/
def rawValueIsInt (body : Json) : Bool :=
  match body.lookup "value" with
  | some (.jint _) => true
  | _ => false

/-- The classified error taxonomy: `FlagNotFoundError`, `TypeMismatchError`
and `GeneralError`, all subclasses of `OpenFeatureError`, each carrying its
message. -/
inductive OpenFeatureError where
  | flagNotFound (message : String)
  | typeMismatch (message : String)
  | general (message : String)

/-- An exception escaping the `try` block of the resolver: a pydantic
`ValidationError`, an already classified `OpenFeatureError`, or any other
unexpected exception (transport errors and the like), with its text. -/
inductive PyExc where
  | validationError (message : String)
  | openFeature (e : OpenFeatureError)
  | other (message : String)

/-- The result handed back to the SDK (`FlagEvaluationDetails[T]`). -/
structure FlagEvaluationDetails where
  flag_key : String
  value : Json
  variant : Option String
  reason : Option String

/-- The raw HTTP response: status code plus decoded JSON body. -/
structure HttpResponse where
  status : Nat
  data : Json

/-- The body of the `try` block of `generic_go_feature_flag_resolver`
(provider.py lines 146-183), after the HTTP response has been obtained:
404 check, >= 400 check, typed decode, integer-coercion guard, DISABLED
branch, errorCode FLAG_NOT_FOUND branch, success. `Reason.DISABLED.value`
and `ErrorCode.FLAG_NOT_FOUND.value` are the strings "DISABLED" and
"FLAG_NOT_FOUND". -/
def resolverBody (original_type : DeclType) (flag_key : String)
    (default_value : Json) (response : HttpResponse) :
    Except PyExc FlagEvaluationDetails :=
  if response.status = 404 then
    .error (.openFeature (.flagNotFound
      ("flag " ++ flag_key ++ " was not found in your configuration")))
  else if 400 ≤ response.status then
    .error (.openFeature (.general
      "impossible to contact GO Feature Flag relay proxy instance"))
  else
    match parseResponse original_type response.data with
    | none => .error (.validationError
        "response body failed to validate against the expected schema")
    | some response_flag_evaluation =>
      if original_type = DeclType.int ∧ rawValueIsInt response.data = false then
        .error (.openFeature (.typeMismatch
          ("unexpected type for flag " ++ flag_key)))
      else if response_flag_evaluation.reason = some "DISABLED" then
        .ok ⟨flag_key, default_value, none, some "DISABLED"⟩
      else if response_flag_evaluation.errorCode = some "FLAG_NOT_FOUND" then
        .error (.openFeature (.flagNotFound
          ("flag " ++ flag_key ++ " was not found in your configuration")))
      else
        .ok ⟨flag_key, response_flag_evaluation.value,
             response_flag_evaluation.variationType,
             response_flag_evaluation.reason⟩

/-- The full `try` body including the HTTP round trip: a transport-level
exception from `self._http_client.request` (provider.py lines 137-144) is
an unclassified exception carrying its text; otherwise the response is
interpreted by `resolverBody`. -/
def resolverBodyFull (original_type : DeclType) (flag_key : String)
    (default_value : Json) (transport : Except String HttpResponse) :
    Except PyExc FlagEvaluationDetails :=
  match transport with
  | .error exc => .error (.other exc)
  | .ok response => resolverBody original_type flag_key default_value response

/-- The three `except` clauses of `generic_go_feature_flag_resolver`
(provider.py lines 184-193): a `ValidationError` becomes a
`TypeMismatchError` naming the flag key (the original message is
discarded), an `OpenFeatureError` is re-raised unchanged, and any other
exception becomes a `GeneralError` naming the flag key and the cause. -/
def handleExc (flag_key : String) : PyExc → OpenFeatureError
  | .validationError _ => .typeMismatch ("unexpected type for flag " ++ flag_key)
  | .openFeature e => e
  | .other msg => .general
      ("unexpected error while evaluating flag " ++ flag_key ++ ": " ++ msg)

/-- `generic_go_feature_flag_resolver` (provider.py lines 113-193): the
`try` body with its exceptions routed through the `except` clauses. -/
def generic_go_feature_flag_resolver (original_type : DeclType)
    (flag_key : String) (default_value : Json)
    (transport : Except String HttpResponse) :
    Except OpenFeatureError FlagEvaluationDetails :=
  match resolverBodyFull original_type flag_key default_value transport with
  | .ok details => .ok details
  | .error exc => .error (handleExc flag_key exc)

/-- `resolve_boolean_details` (provider.py lines 63-71). -/
def resolve_boolean_details (flag_key : String) (default_value : Json)
    (transport : Except String HttpResponse) :
    Except OpenFeatureError FlagEvaluationDetails :=
  generic_go_feature_flag_resolver DeclType.bool flag_key default_value transport

/-- `resolve_string_details` (provider.py lines 73-81). -/
def resolve_string_details (flag_key : String) (default_value : Json)
    (transport : Except String HttpResponse) :
    Except OpenFeatureError FlagEvaluationDetails :=
  generic_go_feature_flag_resolver DeclType.str flag_key default_value transport

/-- `resolve_integer_details` (provider.py lines 83-91). -/
def resolve_integer_details (flag_key : String) (default_value : Json)
    (transport : Except String HttpResponse) :
    Except OpenFeatureError FlagEvaluationDetails :=
  generic_go_feature_flag_resolver DeclType.int flag_key default_value transport

/-- `resolve_float_details` (provider.py lines 93-101). -/
def resolve_float_details (flag_key : String) (default_value : Json)
    (transport : Except String HttpResponse) :
    Except OpenFeatureError FlagEvaluationDetails :=
  generic_go_feature_flag_resolver DeclType.float flag_key default_value transport

/-- `resolve_object_details` (provider.py lines 103-111). -/
def resolve_object_details (flag_key : String) (default_value : Json)
    (transport : Except String HttpResponse) :
    Except OpenFeatureError FlagEvaluationDetails :=
  generic_go_feature_flag_resolver DeclType.obj flag_key default_value transport

/-! ## Helper lemmas -/

/-- A value already of the declared kind is decoded unchanged. -/
lemma coerceValue_of_hasDeclType {t : DeclType} {v : Json}
    (h : v.hasDeclType t = true) : coerceValue t v = some v := by
  cases t <;> cases v <;> simp_all [Json.hasDeclType, coerceValue]

/-- The guard's raw-kind test accepts exactly an integer-literal value field. -/
lemma rawValueIsInt_of_lookup_int {body : Json} {n : Int}
    (h : body.lookup "value" = some (.jint n)) : rawValueIsInt body = true := by
  simp [rawValueIsInt, h]

lemma rawValueIsInt_of_lookup_float {body : Json} {q : Rat}
    (h : body.lookup "value" = some (.jfloat q)) : rawValueIsInt body = false := by
  simp [rawValueIsInt, h]

lemma rawValueIsInt_of_lookup_bool {body : Json} {b : Bool}
    (h : body.lookup "value" = some (.jbool b)) : rawValueIsInt body = false := by
  simp [rawValueIsInt, h]

/-- A successful typed decode determines the decoded value from the raw
`value` field and the declared type. -/
lemma parseResponse_value {t : DeclType} {body : Json}
    {r : ResponseFlagEvaluation} {raw : Json}
    (hp : parseResponse t body = some r) (hl : body.lookup "value" = some raw) :
    coerceValue t raw = some r.value := by
  cases body with
  | jobj fields =>
    simp only [parseResponse] at hp
    rw [hl] at hp
    dsimp only at hp
    cases hc : coerceValue t raw with
    | none => rw [hc] at hp; exact absurd hp (by simp)
    | some w =>
      rw [hc] at hp
      cases hv : parseOptStr (Json.jobj fields) "variationType" with
      | none => simp [hv] at hp
      | some vt =>
        cases hr : parseOptStr (Json.jobj fields) "reason" with
        | none => simp [hv, hr] at hp
        | some rs =>
          cases he : parseOptStr (Json.jobj fields) "errorCode" with
          | none => simp [hv, hr, he] at hp
          | some ec =>
            simp only [hv, hr, he, Option.some.injEq] at hp
            rw [← hp]
  | jnull => simp [parseResponse] at hp
  | jbool b => simp [parseResponse] at hp
  | jint n => simp [parseResponse] at hp
  | jfloat q => simp [parseResponse] at hp
  | jstr s => simp [parseResponse] at hp
  | jarr items => simp [parseResponse] at hp

/-- Lifting an error of the `try` body through the `except` clauses. -/
lemma generic_of_body_error {t : DeclType} {key : String} {dv : Json}
    {resp : HttpResponse} {e : PyExc}
    (h : resolverBody t key dv resp = .error e) :
    generic_go_feature_flag_resolver t key dv (.ok resp) =
      .error (handleExc key e) := by
  simp [generic_go_feature_flag_resolver, resolverBodyFull, h]

/-- Lifting a success of the `try` body through the wrapper. -/
lemma generic_of_body_ok {t : DeclType} {key : String} {dv : Json}
    {resp : HttpResponse} {d : FlagEvaluationDetails}
    (h : resolverBody t key dv resp = .ok d) :
    generic_go_feature_flag_resolver t key dv (.ok resp) = .ok d := by
  simp [generic_go_feature_flag_resolver, resolverBodyFull, h]

/-- Stepping the `try` body past the two status checks for a non-error
status: what remains is the decode, the guard and the body branches. -/
lemma resolverBody_2xx {t : DeclType} {key : String} {dv : Json}
    {resp : HttpResponse} (h : resp.status < 400) :
    resolverBody t key dv resp =
      (match parseResponse t resp.data with
      | none => .error (.validationError
          "response body failed to validate against the expected schema")
      | some r =>
        if t = DeclType.int ∧ rawValueIsInt resp.data = false then
          .error (.openFeature (.typeMismatch
            ("unexpected type for flag " ++ key)))
        else if r.reason = some "DISABLED" then
          .ok ⟨key, dv, none, some "DISABLED"⟩
        else if r.errorCode = some "FLAG_NOT_FOUND" then
          .error (.openFeature (.flagNotFound
            ("flag " ++ key ++ " was not found in your configuration")))
        else
          .ok ⟨key, r.value, r.variationType, r.reason⟩) := by
  unfold resolverBody
  rw [if_neg (by omega : ¬ resp.status = 404),
      if_neg (by omega : ¬ 400 ≤ resp.status)]

/-- Concatenation of strings concatenates their character lists. -/
lemma string_toList_append (a b : String) :
    (a ++ b).toList = a.toList ++ b.toList := by
  cases a
  cases b
  rfl

/-! ## Path lemmas: one per outcome of the resolver -/

/-- A 404 response raises `FlagNotFoundError` (provider.py lines 146-149). -/
lemma generic_404 (t : DeclType) (key : String) (dv : Json) (body : Json) :
    generic_go_feature_flag_resolver t key dv (.ok ⟨404, body⟩) =
      .error (.flagNotFound
        ("flag " ++ key ++ " was not found in your configuration")) := rfl

/-- A status >= 400 other than 404 raises `GeneralError` with a fixed
message (provider.py lines 151-154). -/
lemma generic_ge400 {t : DeclType} {key : String} {dv : Json}
    {resp : HttpResponse} (h400 : 400 ≤ resp.status) (h404 : resp.status ≠ 404) :
    generic_go_feature_flag_resolver t key dv (.ok resp) =
      .error (.general
        "impossible to contact GO Feature Flag relay proxy instance") := by
  have hb : resolverBody t key dv resp = .error (.openFeature (.general
      "impossible to contact GO Feature Flag relay proxy instance")) := by
    unfold resolverBody
    rw [if_neg h404, if_pos h400]
  exact generic_of_body_error hb

/-- A decode failure on a non-error status is re-raised as
`TypeMismatchError` by the first `except` clause (provider.py lines
156-158 and 184-185). -/
lemma generic_2xx_parse_none {t : DeclType} {key : String} {dv : Json}
    {resp : HttpResponse} (hs : resp.status < 400)
    (hp : parseResponse t resp.data = none) :
    generic_go_feature_flag_resolver t key dv (.ok resp) =
      .error (.typeMismatch ("unexpected type for flag " ++ key)) := by
  have hb := @resolverBody_2xx t key dv resp hs
  rw [hp] at hb
  exact generic_of_body_error hb

/-- The integer-coercion guard: int-declared resolution with a raw `value`
field that is not an integer literal raises `TypeMismatchError`
(provider.py lines 160-164). -/
lemma generic_2xx_guard {key : String} {dv : Json} {resp : HttpResponse}
    {r : ResponseFlagEvaluation} (hs : resp.status < 400)
    (hp : parseResponse DeclType.int resp.data = some r)
    (hraw : rawValueIsInt resp.data = false) :
    generic_go_feature_flag_resolver DeclType.int key dv (.ok resp) =
      .error (.typeMismatch ("unexpected type for flag " ++ key)) := by
  have hb := @resolverBody_2xx DeclType.int key dv resp hs
  rw [hp] at hb
  dsimp only at hb
  rw [if_pos ⟨rfl, hraw⟩] at hb
  exact generic_of_body_error hb

/-- The DISABLED branch: the original default value is returned with reason
DISABLED and no variant (provider.py lines 166-171). -/
lemma generic_2xx_disabled {t : DeclType} {key : String} {dv : Json}
    {resp : HttpResponse} {r : ResponseFlagEvaluation} (hs : resp.status < 400)
    (hp : parseResponse t resp.data = some r)
    (hng : ¬(t = DeclType.int ∧ rawValueIsInt resp.data = false))
    (hd : r.reason = some "DISABLED") :
    generic_go_feature_flag_resolver t key dv (.ok resp) =
      .ok ⟨key, dv, none, some "DISABLED"⟩ := by
  have hb := @resolverBody_2xx t key dv resp hs
  rw [hp] at hb
  dsimp only at hb
  rw [if_neg hng, if_pos hd] at hb
  exact generic_of_body_ok hb

/-- The errorCode branch: a decoded errorCode FLAG_NOT_FOUND raises
`FlagNotFoundError` (provider.py lines 173-176). -/
lemma generic_2xx_error_code {t : DeclType} {key : String} {dv : Json}
    {resp : HttpResponse} {r : ResponseFlagEvaluation} (hs : resp.status < 400)
    (hp : parseResponse t resp.data = some r)
    (hng : ¬(t = DeclType.int ∧ rawValueIsInt resp.data = false))
    (hrd : r.reason ≠ some "DISABLED")
    (hec : r.errorCode = some "FLAG_NOT_FOUND") :
    generic_go_feature_flag_resolver t key dv (.ok resp) =
      .error (.flagNotFound
        ("flag " ++ key ++ " was not found in your configuration")) := by
  have hb := @resolverBody_2xx t key dv resp hs
  rw [hp] at hb
  dsimp only at hb
  rw [if_neg hng, if_neg hrd, if_pos hec] at hb
  exact generic_of_body_error hb

/-- The success branch: decoded value, variant and reason are returned
(provider.py lines 178-183). -/
lemma generic_2xx_success {t : DeclType} {key : String} {dv : Json}
    {resp : HttpResponse} {r : ResponseFlagEvaluation} (hs : resp.status < 400)
    (hp : parseResponse t resp.data = some r)
    (hng : ¬(t = DeclType.int ∧ rawValueIsInt resp.data = false))
    (hrd : r.reason ≠ some "DISABLED")
    (hec : r.errorCode ≠ some "FLAG_NOT_FOUND") :
    generic_go_feature_flag_resolver t key dv (.ok resp) =
      .ok ⟨key, r.value, r.variationType, r.reason⟩ := by
  have hb := @resolverBody_2xx t key dv resp hs
  rw [hp] at hb
  dsimp only at hb
  rw [if_neg hng, if_neg hrd, if_neg hec] at hb
  exact generic_of_body_ok hb

/-! ## Claim theorems -/

/-- C5: for every declared value type and every default value, a response
with HTTP status 404 makes the resolver raise a `FlagNotFoundError` whose
message names the flag key. -/
theorem c5_status_404_raises_not_found (t : DeclType) (key : String)
    (dv : Json) (body : Json) :
    generic_go_feature_flag_resolver t key dv (.ok ⟨404, body⟩) =
      .error (.flagNotFound
        ("flag " ++ key ++ " was not found in your configuration"))
    ∧ ∃ pre post : String,
        "flag " ++ key ++ " was not found in your configuration" =
          pre ++ key ++ post :=
  ⟨generic_404 t key dv body,
   "flag ", " was not found in your configuration", rfl⟩

/-- C2 counterexample: a 500 response does raise `GeneralError`, but its
message is the fixed string "impossible to contact GO Feature Flag relay
proxy instance", which does not contain the flag key "my-flag". -/
theorem c2_counterexample :
    resolve_boolean_details "my-flag" (.jbool false) (.ok ⟨500, .jnull⟩) =
      .error (.general
        "impossible to contact GO Feature Flag relay proxy instance")
    ∧ ¬ ∃ pre post : String,
        "impossible to contact GO Feature Flag relay proxy instance" =
          pre ++ "my-flag" ++ post := by
  constructor
  · rfl
  · rintro ⟨pre, post, h⟩
    have hm : '-' ∈
        ("impossible to contact GO Feature Flag relay proxy instance").toList := by
      rw [h, string_toList_append, string_toList_append]
      refine List.mem_append.mpr (Or.inl (List.mem_append.mpr (Or.inr ?_)))
      decide
    exact absurd hm (by decide)

/-- C2 (amended): for every response with HTTP status >= 400 other than
404, the resolver raises a `GeneralError`, but with the fixed message
"impossible to contact GO Feature Flag relay proxy instance", which does
not include the flag key or any underlying cause text. -/
theorem c2_amended_ge400_raises_general (t : DeclType) (key : String)
    (dv : Json) (resp : HttpResponse)
    (h400 : 400 ≤ resp.status) (h404 : resp.status ≠ 404) :
    generic_go_feature_flag_resolver t key dv (.ok resp) =
      .error (.general
        "impossible to contact GO Feature Flag relay proxy instance") :=
  generic_ge400 h400 h404

/-- C2 (amended) witness at status 500 for a string-declared call. -/
theorem c2_amended_witness :
    generic_go_feature_flag_resolver DeclType.str "my-flag" (.jstr "red")
      (.ok ⟨500, .jnull⟩) =
      .error (.general
        "impossible to contact GO Feature Flag relay proxy instance") :=
  c2_amended_ge400_raises_general DeclType.str "my-flag" (.jstr "red")
    ⟨500, .jnull⟩ (by decide) (by decide)

/-- C3: for integer-declared resolution, a non-error response whose raw
JSON `value` field is a float literal raises `TypeMismatchError` naming the
flag key (either the decode fails, or the integer-coercion guard at
provider.py lines 160-164 fires). -/
theorem c3_integer_raw_float_type_mismatch (key : String) (dv : Json)
    (resp : HttpResponse) (q : Rat)
    (hs : resp.status < 400)
    (hv : resp.data.lookup "value" = some (.jfloat q)) :
    resolve_integer_details key dv (.ok resp) =
      .error (.typeMismatch ("unexpected type for flag " ++ key))
    ∧ ∃ pre post : String,
        "unexpected type for flag " ++ key = pre ++ key ++ post := by
  have hraw := rawValueIsInt_of_lookup_float hv
  refine ⟨?_, "unexpected type for flag ", "", by simp⟩
  cases hp : parseResponse DeclType.int resp.data with
  | none => exact generic_2xx_parse_none hs hp
  | some r => exact generic_2xx_guard hs hp hraw

/-- C3 witness: end-to-end scenario C of the spec (flag "max-items",
default 10, value 7.0). -/
theorem c3_witness :
    resolve_integer_details "max-items" (.jint 10)
      (.ok ⟨200, .jobj [("value", .jfloat 7), ("variationType", .jstr "v1"),
                        ("reason", .jstr "TARGETING_MATCH")]⟩) =
      .error (.typeMismatch ("unexpected type for flag " ++ "max-items"))
    ∧ ∃ pre post : String,
        "unexpected type for flag " ++ "max-items" =
          pre ++ "max-items" ++ post :=
  c3_integer_raw_float_type_mismatch "max-items" (.jint 10)
    ⟨200, .jobj [("value", .jfloat 7), ("variationType", .jstr "v1"),
                 ("reason", .jstr "TARGETING_MATCH")]⟩ 7
    (by decide) rfl

/-- C10: for integer-declared resolution, a non-error response whose raw
JSON `value` field is a boolean raises `TypeMismatchError`, because
`type(...) != int` holds of a Python bool, even though the typed decoder
coerces booleans to integers (`coerceValue`). -/
theorem c10_integer_raw_bool_type_mismatch (key : String) (dv : Json)
    (resp : HttpResponse) (b : Bool)
    (hs : resp.status < 400)
    (hv : resp.data.lookup "value" = some (.jbool b)) :
    resolve_integer_details key dv (.ok resp) =
      .error (.typeMismatch ("unexpected type for flag " ++ key))
    ∧ coerceValue DeclType.int (.jbool b) =
        some (.jint (if b then 1 else 0)) := by
  have hraw := rawValueIsInt_of_lookup_bool hv
  refine ⟨?_, rfl⟩
  cases hp : parseResponse DeclType.int resp.data with
  | none => exact generic_2xx_parse_none hs hp
  | some r => exact generic_2xx_guard hs hp hraw

/-- C10 witness: a 200 response with raw value `true` for an int-declared
call. -/
theorem c10_witness :
    resolve_integer_details "my-int-flag" (.jint 0)
      (.ok ⟨200, .jobj [("value", .jbool true),
                        ("reason", .jstr "TARGETING_MATCH")]⟩) =
      .error (.typeMismatch ("unexpected type for flag " ++ "my-int-flag"))
    ∧ coerceValue DeclType.int (.jbool true) =
        some (.jint (if true then 1 else 0)) :=
  c10_integer_raw_bool_type_mismatch "my-int-flag" (.jint 0)
    ⟨200, .jobj [("value", .jbool true), ("reason", .jstr "TARGETING_MATCH")]⟩
    true (by decide) rfl

/-- C8: for every declared type, a non-error response whose body fails to
decode against the `ResponseFlagEvaluation` schema raises
`TypeMismatchError` naming the flag key (the `except ValidationError`
clause, provider.py lines 184-185). -/
theorem c8_decode_failure_type_mismatch (t : DeclType) (key : String)
    (dv : Json) (resp : HttpResponse)
    (hs : resp.status < 400)
    (hp : parseResponse t resp.data = none) :
    generic_go_feature_flag_resolver t key dv (.ok resp) =
      .error (.typeMismatch ("unexpected type for flag " ++ key))
    ∧ ∃ pre post : String,
        "unexpected type for flag " ++ key = pre ++ key ++ post :=
  ⟨generic_2xx_parse_none hs hp, "unexpected type for flag ", "", by simp⟩

/-- C8 witness: a boolean-declared call whose response value is a string. -/
theorem c8_witness :
    generic_go_feature_flag_resolver DeclType.bool "my-bool-flag"
      (.jbool false)
      (.ok ⟨200, .jobj [("value", .jstr "hello")]⟩) =
      .error (.typeMismatch ("unexpected type for flag " ++ "my-bool-flag"))
    ∧ ∃ pre post : String,
        "unexpected type for flag " ++ "my-bool-flag" =
          pre ++ "my-bool-flag" ++ post :=
  c8_decode_failure_type_mismatch DeclType.bool "my-bool-flag" (.jbool false)
    ⟨200, .jobj [("value", .jstr "hello")]⟩ (by decide) rfl

/-- C1 counterexample: an int-declared call whose response decodes
successfully with reason DISABLED but whose raw `value` field is the float
literal 3.0 raises `TypeMismatchError` instead of returning the default:
the integer-coercion guard (provider.py lines 160-164) runs before the
DISABLED check (lines 166-171). -/
theorem c1_counterexample :
    parseResponse DeclType.int
        (.jobj [("value", .jfloat 3), ("reason", .jstr "DISABLED")]) =
      some ⟨.jint 3, none, some "DISABLED", none⟩
    ∧ resolve_integer_details "my-flag" (.jint 10)
        (.ok ⟨200, .jobj [("value", .jfloat 3), ("reason", .jstr "DISABLED")]⟩) =
      .error (.typeMismatch ("unexpected type for flag " ++ "my-flag")) :=
  ⟨rfl, rfl⟩

/-- C1 (amended): for every declared value type and every caller-supplied
default, if the decoded response has reason DISABLED, the resolver returns
a successful result whose value is the original default unchanged, whose
variant is unset, and whose reason is DISABLED — provided that, when the
declared type is int, the raw JSON `value` field is an integer literal
(otherwise the integer-coercion guard raises `TypeMismatchError` first). -/
theorem c1_amended_disabled_returns_default (t : DeclType) (key : String)
    (dv : Json) (resp : HttpResponse) (r : ResponseFlagEvaluation)
    (hs : resp.status < 400)
    (hp : parseResponse t resp.data = some r)
    (hd : r.reason = some "DISABLED")
    (hguard : t = DeclType.int → rawValueIsInt resp.data = true) :
    generic_go_feature_flag_resolver t key dv (.ok resp) =
      .ok ⟨key, dv, none, some "DISABLED"⟩ := by
  have hng : ¬(t = DeclType.int ∧ rawValueIsInt resp.data = false) := by
    rintro ⟨ht, hraw⟩
    rw [hguard ht] at hraw
    exact absurd hraw (by decide)
  exact generic_2xx_disabled hs hp hng hd

/-- C1 (amended) witness: end-to-end scenario D of the spec (flag
"rollout-pct", default 0.5, response value 0.5 with reason DISABLED). -/
theorem c1_amended_witness :
    generic_go_feature_flag_resolver DeclType.float "rollout-pct"
      (.jfloat (1 / 2))
      (.ok ⟨200, .jobj [("value", .jfloat (1 / 2)),
                        ("reason", .jstr "DISABLED")]⟩) =
      .ok ⟨"rollout-pct", .jfloat (1 / 2), none, some "DISABLED"⟩ :=
  c1_amended_disabled_returns_default DeclType.float "rollout-pct"
    (.jfloat (1 / 2))
    ⟨200, .jobj [("value", .jfloat (1 / 2)), ("reason", .jstr "DISABLED")]⟩
    ⟨.jfloat (1 / 2), none, some "DISABLED", none⟩
    (by decide) rfl rfl (by decide)

/-- C6 counterexample: an int-declared 200 response that decodes with
errorCode FLAG_NOT_FOUND (and no DISABLED reason) but whose raw `value`
field is the float literal 3.0 raises `TypeMismatchError`, not
`FlagNotFoundError`: the integer-coercion guard runs before the errorCode
check (provider.py lines 173-176). -/
theorem c6_counterexample :
    parseResponse DeclType.int
        (.jobj [("value", .jfloat 3), ("errorCode", .jstr "FLAG_NOT_FOUND")]) =
      some ⟨.jint 3, none, none, some "FLAG_NOT_FOUND"⟩
    ∧ resolve_integer_details "my-flag" (.jint 1)
        (.ok ⟨200, .jobj [("value", .jfloat 3),
                          ("errorCode", .jstr "FLAG_NOT_FOUND")]⟩) =
      .error (.typeMismatch ("unexpected type for flag " ++ "my-flag")) :=
  ⟨rfl, rfl⟩

/-- C6 (amended): for every non-error response whose decoded body has
errorCode FLAG_NOT_FOUND and reason not DISABLED, the resolver raises a
`FlagNotFoundError` naming the flag key — provided that, when the declared
type is int, the raw JSON `value` field is an integer literal (otherwise
the integer-coercion guard raises `TypeMismatchError` first). -/
theorem c6_amended_error_code_not_found (t : DeclType) (key : String)
    (dv : Json) (resp : HttpResponse) (r : ResponseFlagEvaluation)
    (hs : resp.status < 400)
    (hp : parseResponse t resp.data = some r)
    (hrd : r.reason ≠ some "DISABLED")
    (hec : r.errorCode = some "FLAG_NOT_FOUND")
    (hguard : t = DeclType.int → rawValueIsInt resp.data = true) :
    generic_go_feature_flag_resolver t key dv (.ok resp) =
      .error (.flagNotFound
        ("flag " ++ key ++ " was not found in your configuration"))
    ∧ ∃ pre post : String,
        "flag " ++ key ++ " was not found in your configuration" =
          pre ++ key ++ post := by
  have hng : ¬(t = DeclType.int ∧ rawValueIsInt resp.data = false) := by
    rintro ⟨ht, hraw⟩
    rw [hguard ht] at hraw
    exact absurd hraw (by decide)
  exact ⟨generic_2xx_error_code hs hp hng hrd hec,
         "flag ", " was not found in your configuration", rfl⟩

/-- C6 (amended) witness: a boolean-declared 200 response carrying
errorCode FLAG_NOT_FOUND. -/
theorem c6_amended_witness :
    generic_go_feature_flag_resolver DeclType.bool "missing-flag"
      (.jbool false)
      (.ok ⟨200, .jobj [("value", .jbool false),
                        ("errorCode", .jstr "FLAG_NOT_FOUND")]⟩) =
      .error (.flagNotFound
        ("flag " ++ "missing-flag" ++ " was not found in your configuration"))
    ∧ ∃ pre post : String,
        "flag " ++ "missing-flag" ++ " was not found in your configuration" =
          pre ++ "missing-flag" ++ post :=
  c6_amended_error_code_not_found DeclType.bool "missing-flag" (.jbool false)
    ⟨200, .jobj [("value", .jbool false),
                 ("errorCode", .jstr "FLAG_NOT_FOUND")]⟩
    ⟨.jbool false, none, none, some "FLAG_NOT_FOUND"⟩
    (by decide) rfl (by decide) rfl (by decide)

/-- C7: for every supported value kind, a well-formed 200 response whose
`value` field is already of the declared kind, with reason not DISABLED and
errorCode not FLAG_NOT_FOUND, yields a result whose value equals the
decoded response value (here the raw value itself), whose variant is the
response's variationType, whose reason is the response's reason, and whose
value has exactly the declared kind. -/
theorem c7_success_returns_decoded_value (t : DeclType) (key : String)
    (dv : Json) (resp : HttpResponse) (r : ResponseFlagEvaluation) (v : Json)
    (h200 : resp.status = 200)
    (hl : resp.data.lookup "value" = some v)
    (hv : v.hasDeclType t = true)
    (hp : parseResponse t resp.data = some r)
    (hrd : r.reason ≠ some "DISABLED")
    (hec : r.errorCode ≠ some "FLAG_NOT_FOUND") :
    generic_go_feature_flag_resolver t key dv (.ok resp) =
      .ok ⟨key, v, r.variationType, r.reason⟩
    ∧ r.value = v ∧ v.hasDeclType t = true := by
  have hs : resp.status < 400 := by omega
  have hcv : coerceValue t v = some v := coerceValue_of_hasDeclType hv
  have hval : r.value = v := by
    have h1 := parseResponse_value hp hl
    rw [hcv] at h1
    exact (Option.some.inj h1).symm
  have hng : ¬(t = DeclType.int ∧ rawValueIsInt resp.data = false) := by
    rintro ⟨ht, hraw⟩
    subst ht
    cases v with
    | jint n => rw [rawValueIsInt_of_lookup_int hl] at hraw; exact absurd hraw (by decide)
    | jnull => simp [Json.hasDeclType] at hv
    | jbool b => simp [Json.hasDeclType] at hv
    | jfloat q => simp [Json.hasDeclType] at hv
    | jstr s => simp [Json.hasDeclType] at hv
    | jarr items => simp [Json.hasDeclType] at hv
    | jobj fields => simp [Json.hasDeclType] at hv
  have hgen := @generic_2xx_success t key dv resp r hs hp hng hrd hec
  rw [hval] at hgen
  exact ⟨hgen, hval, hv⟩

/-- C7 witness: end-to-end scenario A of the spec (flag "dark-mode",
default false, response value true with variant "enabled" and reason
TARGETING_MATCH). -/
theorem c7_witness :
    generic_go_feature_flag_resolver DeclType.bool "dark-mode" (.jbool false)
      (.ok ⟨200, .jobj [("value", .jbool true),
                        ("variationType", .jstr "enabled"),
                        ("reason", .jstr "TARGETING_MATCH")]⟩) =
      .ok ⟨"dark-mode", .jbool true, some "enabled", some "TARGETING_MATCH"⟩
    ∧ (ResponseFlagEvaluation.value
        ⟨.jbool true, some "enabled", some "TARGETING_MATCH", none⟩) = .jbool true
    ∧ Json.hasDeclType DeclType.bool (.jbool true) = true :=
  c7_success_returns_decoded_value DeclType.bool "dark-mode" (.jbool false)
    ⟨200, .jobj [("value", .jbool true), ("variationType", .jstr "enabled"),
                 ("reason", .jstr "TARGETING_MATCH")]⟩
    ⟨.jbool true, some "enabled", some "TARGETING_MATCH", none⟩
    (.jbool true) rfl rfl rfl rfl (by decide) (by decide)

/-- C9: the raw-kind guard only fires for int-declared resolution. A
float-declared call accepts an integer-literal JSON `value` (widened to a
float) without error, and an object-declared call succeeds for any
object/array value with no numeric-kind validation of its leaves. -/
theorem c9_guard_only_for_int_declared :
    (∀ (key : String) (dv : Json) (resp : HttpResponse) (n : Int)
        (r : ResponseFlagEvaluation),
      resp.status < 400 →
      resp.data.lookup "value" = some (.jint n) →
      parseResponse DeclType.float resp.data = some r →
      r.reason ≠ some "DISABLED" →
      r.errorCode ≠ some "FLAG_NOT_FOUND" →
      resolve_float_details key dv (.ok resp) =
        .ok ⟨key, .jfloat (n : Rat), r.variationType, r.reason⟩)
    ∧ (∀ (key : String) (dv : Json) (resp : HttpResponse) (v : Json)
        (r : ResponseFlagEvaluation),
      resp.status < 400 →
      resp.data.lookup "value" = some v →
      v.hasDeclType DeclType.obj = true →
      parseResponse DeclType.obj resp.data = some r →
      r.reason ≠ some "DISABLED" →
      r.errorCode ≠ some "FLAG_NOT_FOUND" →
      resolve_object_details key dv (.ok resp) =
        .ok ⟨key, v, r.variationType, r.reason⟩) := by
  constructor
  · intro key dv resp n r hs hl hp hrd hec
    have hval : r.value = .jfloat (n : Rat) := by
      have h1 := parseResponse_value hp hl
      exact (Option.some.inj h1).symm
    have hng : ¬(DeclType.float = DeclType.int ∧
        rawValueIsInt resp.data = false) := by
      rintro ⟨ht, -⟩
      exact absurd ht (by decide)
    have hgen := @generic_2xx_success DeclType.float key dv resp r hs hp hng hrd hec
    rw [hval] at hgen
    exact hgen
  · intro key dv resp v r hs hl hv hp hrd hec
    have hcv : coerceValue DeclType.obj v = some v :=
      coerceValue_of_hasDeclType hv
    have hval : r.value = v := by
      have h1 := parseResponse_value hp hl
      rw [hcv] at h1
      exact (Option.some.inj h1).symm
    have hng : ¬(DeclType.obj = DeclType.int ∧
        rawValueIsInt resp.data = false) := by
      rintro ⟨ht, -⟩
      exact absurd ht (by decide)
    have hgen := @generic_2xx_success DeclType.obj key dv resp r hs hp hng hrd hec
    rw [hval] at hgen
    exact hgen

/-- C9 witness: a float-declared call accepting raw integer 7, and an
object-declared call whose value contains a float leaf. -/
theorem c9_witness :
    resolve_float_details "ratio-flag" (.jfloat 0)
      (.ok ⟨200, .jobj [("value", .jint 7),
                        ("reason", .jstr "TARGETING_MATCH")]⟩) =
      .ok ⟨"ratio-flag", .jfloat ((7 : Int) : Rat), none,
           some "TARGETING_MATCH"⟩
    ∧ resolve_object_details "cfg-flag" (.jobj [])
      (.ok ⟨200, .jobj [("value", .jobj [("a", .jfloat (3 : Rat))]),
                        ("reason", .jstr "TARGETING_MATCH")]⟩) =
      .ok ⟨"cfg-flag", .jobj [("a", .jfloat (3 : Rat))], none,
           some "TARGETING_MATCH"⟩ :=
  ⟨c9_guard_only_for_int_declared.1 "ratio-flag" (.jfloat 0)
    ⟨200, .jobj [("value", .jint 7), ("reason", .jstr "TARGETING_MATCH")]⟩
    7 ⟨.jfloat ((7 : Int) : Rat), none, some "TARGETING_MATCH", none⟩
    (by decide) rfl rfl (by decide) (by decide),
   c9_guard_only_for_int_declared.2 "cfg-flag" (.jobj [])
    ⟨200, .jobj [("value", .jobj [("a", .jfloat (3 : Rat))]),
                 ("reason", .jstr "TARGETING_MATCH")]⟩
    (.jobj [("a", .jfloat (3 : Rat))])
    ⟨.jobj [("a", .jfloat (3 : Rat))], none, some "TARGETING_MATCH", none⟩
    (by decide) rfl rfl rfl (by decide) (by decide)⟩

/-- C4: every invocation either succeeds or yields exactly one error of the
classified taxonomy (the `Except OpenFeatureError` result); an already
classified `FlagNotFoundError` or `TypeMismatchError` raised inside the
`try` body propagates unchanged through the `except` clauses, and any other
unexpected exception is raised as `GeneralError` whose message carries the
flag key and the underlying cause text (provider.py lines 184-193). -/
theorem c4_error_classification (t : DeclType) (key : String) (dv : Json)
    (tr : Except String HttpResponse) :
    ((∃ d, generic_go_feature_flag_resolver t key dv tr = .ok d) ∨
     (∃ e, generic_go_feature_flag_resolver t key dv tr = .error e))
    ∧ (∀ m, resolverBodyFull t key dv tr = .error (.openFeature (.flagNotFound m)) →
        generic_go_feature_flag_resolver t key dv tr = .error (.flagNotFound m))
    ∧ (∀ m, resolverBodyFull t key dv tr = .error (.openFeature (.typeMismatch m)) →
        generic_go_feature_flag_resolver t key dv tr = .error (.typeMismatch m))
    ∧ (∀ m, resolverBodyFull t key dv tr = .error (.other m) →
        generic_go_feature_flag_resolver t key dv tr =
          .error (.general
            ("unexpected error while evaluating flag " ++ key ++ ": " ++ m))
        ∧ ∃ pre mid post : String,
            "unexpected error while evaluating flag " ++ key ++ ": " ++ m =
              pre ++ key ++ mid ++ m ++ post) := by
  refine ⟨?_, ?_, ?_, ?_⟩
  · cases h : generic_go_feature_flag_resolver t key dv tr with
    | ok d => exact Or.inl ⟨d, rfl⟩
    | error e => exact Or.inr ⟨e, rfl⟩
  · intro m h
    unfold generic_go_feature_flag_resolver
    rw [h]
    rfl
  · intro m h
    unfold generic_go_feature_flag_resolver
    rw [h]
    rfl
  · intro m h
    refine ⟨?_, "unexpected error while evaluating flag ", ": ", "", by simp⟩
    unfold generic_go_feature_flag_resolver
    rw [h]
    rfl

/-- C4 witness: a classified 404 error passes through unchanged, and a
transport-level exception surfaces as a `GeneralError` naming the flag key
and the cause. -/
theorem c4_witness :
    generic_go_feature_flag_resolver DeclType.bool "my-flag" (.jbool false)
      (.ok ⟨404, .jnull⟩) =
      .error (.flagNotFound
        ("flag " ++ "my-flag" ++ " was not found in your configuration"))
    ∧ generic_go_feature_flag_resolver DeclType.bool "my-flag" (.jbool false)
      (.error "connection timed out") =
      .error (.general
        ("unexpected error while evaluating flag " ++ "my-flag" ++ ": " ++
         "connection timed out")) :=
  ⟨(c4_error_classification DeclType.bool "my-flag" (.jbool false)
      (.ok ⟨404, .jnull⟩)).2.1
      ("flag " ++ "my-flag" ++ " was not found in your configuration") rfl,
   ((c4_error_classification DeclType.bool "my-flag" (.jbool false)
      (.error "connection timed out")).2.2.2 "connection timed out" rfl).1⟩
